import Mathlib

/-!
Verification of `speedtest_analyzer/scripts/visualize.py`.

The file is a shallow embedding of the two functions of the repository:
`parse_speedtest_log` (CSV log → dataset, any failure caught and turned
into a `None` result plus one printed diagnostic) and
`visualize_speed_over_time` (chart rendering, optional save, statistics
printing).  The input file is modelled as `Option (List (List String))`
(`none` = unreadable/missing file, otherwise the rows of fields after CSV
splitting), numeric values as `ℚ` (the Python floats; all values of the
spec scenarios are exactly representable), and the visualizer's side
effects as an ordered trace of `VisEvent`s.
-/

/-- A parsed timestamp, as produced by `pd.to_datetime` on a
`YYYY-MM-DD HH:MM:SS` string (the format of the speedtest log). -/
structure DateTime where
  year : Nat
  month : Nat
  day : Nat
  hour : Nat
  minute : Nat
  second : Nat
deriving DecidableEq

/-- Chronological key of a timestamp: decimal-positional encoding, order
faithful because the parser validates `month ≤ 12`, `day ≤ 31`,
`hour < 24`, `minute < 60`, `second < 60`. -/
def DateTime.key (t : DateTime) : Nat :=
  ((((t.year * 100 + t.month) * 100 + t.day) * 100 + t.hour) * 100 + t.minute) * 100
    + t.second

/-- Zero-padded two-digit rendering, as in pandas timestamp printing. -/
def pad2 (n : Nat) : String :=
  if n < 10 then "0" ++ toString n else toString n

/-- Textual rendering of a timestamp, as printed by `print(f"期間: ...")`
on a pandas Timestamp. -/
def DateTime.render (t : DateTime) : String :=
  toString t.year ++ "-" ++ pad2 t.month ++ "-" ++ pad2 t.day ++ " "
    ++ pad2 t.hour ++ ":" ++ pad2 t.minute ++ ":" ++ pad2 t.second

/-- Split a character list at every occurrence of `c` (the field/format
splitting used below; always returns at least one chunk). -/
def splitOnChar (c : Char) : List Char → List (List Char)
  | [] => [[]]
  | x :: xs =>
    let r := splitOnChar c xs
    if x = c then [] :: r
    else
      match r with
      | [] => [[x]]
      | y :: ys => (x :: y) :: ys

/-- Value of a decimal digit character. -/
def digitVal? (c : Char) : Option Nat :=
  if '0' ≤ c ∧ c ≤ '9' then some (c.toNat - '0'.toNat) else none

/-- Accumulating decimal reading of a digit list. -/
def digitsToNatAux : List Char → Nat → Option Nat
  | [], acc => some acc
  | c :: cs, acc =>
    match digitVal? c with
    | some d => digitsToNatAux cs (acc * 10 + d)
    | none => none

/-- Read a non-empty all-digit character list as a `Nat`. -/
def digitsToNat? : List Char → Option Nat
  | [] => none
  | cs => digitsToNatAux cs 0

/-- Numeric reading of an unsigned decimal literal, with an optional
fractional part (`"100000000"`, `"12.5"`). -/
def parseRatChars (cs : List Char) : Option ℚ :=
  match splitOnChar '.' cs with
  | [w] => (digitsToNat? w).map (fun n => (n : ℚ))
  | [w, f] => do
    let wn ← digitsToNat? w
    let fn ← digitsToNat? f
    pure ((wn : ℚ) + (fn : ℚ) / ((10 : ℚ) ^ f.length))
  | _ => none

/-- Numeric reading of a decimal literal with an optional sign: the model
of pandas reading a `Download`/`Upload` field as a number.  A field that
does not read as a number leaves the column non-numeric and the division
`df["Download"] / 1_000_000` raises, so parsing fails. -/
def parseRat (s : String) : Option ℚ :=
  match s.data with
  | '-' :: rest => (parseRatChars rest).map Neg.neg
  | cs => parseRatChars cs

/-- The model of `pd.to_datetime` on one field of the log: accepts the
`YYYY-MM-DD HH:MM:SS` format used by the speedtest log, validating the
calendar ranges; anything else raises, so parsing fails. -/
def parseDateTime (s : String) : Option DateTime :=
  match splitOnChar ' ' s.data with
  | [d, t] =>
    match splitOnChar '-' d, splitOnChar ':' t with
    | [ys, mos, das], [hs, mis, ses] => do
      let y ← digitsToNat? ys
      let mo ← digitsToNat? mos
      let da ← digitsToNat? das
      let h ← digitsToNat? hs
      let mi ← digitsToNat? mis
      let se ← digitsToNat? ses
      if 1 ≤ mo ∧ mo ≤ 12 ∧ 1 ≤ da ∧ da ≤ 31 ∧ h < 24 ∧ mi < 60 ∧ se < 60 then
        some ⟨y, mo, da, h, mi, se⟩
      else none
    | _, _ => none
  | _ => none

/-- The exceptions that the `try` block of `parse_speedtest_log` can
raise: missing/unreadable file and empty file (from `pd.read_csv`),
missing column (`KeyError` on `df[...]`), unparsable timestamp
(`pd.to_datetime`), non-numeric throughput (the `/ 1_000_000` division),
and a row without the required field. -/
inductive ParseError where
  | fileMissing
  | emptyFile
  | missingColumn (name : String)
  | badTimestamp (value : String)
  | badThroughput (value : String)
  | shortRow
deriving DecidableEq

/-- The `str(e)` of the caught exception, interpolated into the printed
diagnostic `f"エラー: ログファイルの解析に失敗しました - {e}"`. -/
def renderError : ParseError → String
  | ParseError.fileMissing => "[Errno 2] No such file or directory"
  | ParseError.emptyFile => "No columns to parse from file"
  | ParseError.missingColumn name => "KeyError: " ++ name
  | ParseError.badTimestamp value => "Unknown datetime string format: " ++ value
  | ParseError.badThroughput value => "unsupported operand type for /: " ++ value
  | ParseError.shortRow => "missing field in row"

/-- One row of the parsed DataFrame: the `Timestamp` column converted to
a datetime, the raw `Download`/`Upload` columns (bits per second), and
the derived `Download_Mbps`/`Upload_Mbps` columns. -/
structure MeasurementRecord where
  timestamp : DateTime
  download_bps : ℚ
  upload_bps : ℚ
  download_mbps : ℚ
  upload_mbps : ℚ
deriving DecidableEq

/-- Index of the first occurrence of a column name in the header row
(`df["name"]` column lookup; `none` models the `KeyError`). -/
def colIdx? (name : String) : List String → Option Nat
  | [] => none
  | h :: t => if h = name then some 0 else (colIdx? name t).map (· + 1)

/-- Conversion of one data row, given the column indices of `Timestamp`,
`Download` and `Upload`: datetime conversion of the timestamp field and
the two divisions `df["Download"] / 1_000_000`,
`df["Upload"] / 1_000_000` of lines 21–22 of the source. -/
def parseRow (iT iD iU : Nat) (row : List String) : Except ParseError MeasurementRecord :=
  match row.get? iT with
  | none => Except.error ParseError.shortRow
  | some tss =>
    match parseDateTime tss with
    | none => Except.error (ParseError.badTimestamp tss)
    | some ts =>
      match row.get? iD with
      | none => Except.error ParseError.shortRow
      | some dls =>
        match parseRat dls with
        | none => Except.error (ParseError.badThroughput dls)
        | some dl =>
          match row.get? iU with
          | none => Except.error ParseError.shortRow
          | some uls =>
            match parseRat uls with
            | none => Except.error (ParseError.badThroughput uls)
            | some ul =>
              Except.ok
                { timestamp := ts
                  download_bps := dl
                  upload_bps := ul
                  download_mbps := dl / 1000000
                  upload_mbps := ul / 1000000 }

/-- Column-wise conversion of all data rows; the first raising row aborts
the whole conversion (the `try` block either completes for every row or
raises, so no partial dataset is ever produced). -/
def parseRowsLoop (iT iD iU : Nat) : List (List String) → Except ParseError (List MeasurementRecord)
  | [] => Except.ok []
  | r :: rs =>
    match parseRow iT iD iU r with
    | Except.error e => Except.error e
    | Except.ok x =>
      match parseRowsLoop iT iD iU rs with
      | Except.error e => Except.error e
      | Except.ok xs => Except.ok (x :: xs)

/-- The `try` block of `parse_speedtest_log`: `pd.read_csv` (fails on a
missing or contentless file, reads the header row otherwise), column
lookups, and the row conversions. -/
def parse_core : Option (List (List String)) → Except ParseError (List MeasurementRecord)
  | none => Except.error ParseError.fileMissing
  | some [] => Except.error ParseError.emptyFile
  | some (hdr :: rows) =>
    match colIdx? "Timestamp" hdr with
    | none => Except.error (ParseError.missingColumn "Timestamp")
    | some iT =>
      match colIdx? "Download" hdr with
      | none => Except.error (ParseError.missingColumn "Download")
      | some iD =>
        match colIdx? "Upload" hdr with
        | none => Except.error (ParseError.missingColumn "Upload")
        | some iU => parseRowsLoop iT iD iU rows

/-- The diagnostic printed by the `except` clause. -/
def errorMessage (e : ParseError) : String :=
  "エラー: ログファイルの解析に失敗しました - " ++ renderError e

/-- Result of `parse_speedtest_log`: the returned dataset (`none` after a
caught exception) and the lines printed while parsing. -/
structure ParseOutput where
  dataset : Option (List MeasurementRecord)
  console : List String
deriving DecidableEq

/-- The function `parse_speedtest_log`: every exception of the `try` block is caught,
one diagnostic naming the cause is printed, and `None` is returned. -/
def parse_speedtest_log (file : Option (List (List String))) : ParseOutput :=
  match parse_core file with
  | Except.ok ds => ⟨some ds, []⟩
  | Except.error e => ⟨none, [errorMessage e]⟩

/-- Minimum of a value list (`Series.min()` of pandas; only applied to
non-empty lists by the visualizer). -/
def qMin : List ℚ → ℚ
  | [] => 0
  | [x] => x
  | x :: xs => min x (qMin xs)

/-- Maximum of a value list (`Series.max()`). -/
def qMax : List ℚ → ℚ
  | [] => 0
  | [x] => x
  | x :: xs => max x (qMax xs)

/-- Sum of a value list. -/
def qSum : List ℚ → ℚ
  | [] => 0
  | x :: xs => x + qSum xs

/-- Mean of a value list (`Series.mean()`). -/
def qMean (xs : List ℚ) : ℚ := qSum xs / (xs.length : ℚ)

/-- Earliest timestamp of a list (`Series.min()` on the Timestamp
column). -/
def dtMin : List DateTime → DateTime
  | [] => ⟨0, 1, 1, 0, 0, 0⟩
  | [t] => t
  | t :: ts =>
    let m := dtMin ts
    if t.key ≤ m.key then t else m

/-- Latest timestamp of a list (`Series.max()` on the Timestamp
column). -/
def dtMax : List DateTime → DateTime
  | [] => ⟨0, 1, 1, 0, 0, 0⟩
  | [t] => t
  | t :: ts =>
    let m := dtMax ts
    if m.key ≤ t.key then t else m

/-- Fixed two-decimal rendering of a number of hundredths. -/
def format2Int (n : Int) : String :=
  (if n < 0 then "-" else "") ++ toString (n.natAbs / 100) ++ "."
    ++ (if n.natAbs % 100 < 10 then "0" else "") ++ toString (n.natAbs % 100)

/-- The `:.2f` formatting of the source's f-strings: fixed two decimal
places, rounding to the nearest hundredth (ties upward in the model; no
value of the spec scenarios is a tie). -/
def format2 (q : ℚ) : String :=
  format2Int (Int.floor (q * 100 + 1 / 2))

/-- One observable action of `visualize_speed_over_time`, in program
order: figure creation, a `plt.plot` series, the `plt.ylim` call, a
`plt.text` point annotation, `plt.savefig`, `plt.show`, or a `print`.
Pure styling calls (title, labels, legend, grid, tick formatting,
`tight_layout`) are elided: they render no data and print nothing. -/
inductive VisEvent where
  | figure
  | plotSeries (label : String) (points : List (DateTime × ℚ))
  | setYLim (lo hi : ℚ)
  | text (t : DateTime) (v : ℚ) (s : String)
  | savefig (path : String) (dpi : Nat)
  | showChart
  | message (s : String)
deriving DecidableEq

/-- The `for i, row in df.iterrows()` annotation loop: for every row, one
`plt.text` with the download value (va="bottom") then one with the upload
value (va="top"), both formatted `:.2f`. -/
def textLabels : List MeasurementRecord → List VisEvent
  | [] => []
  | r :: rs =>
    VisEvent.text r.timestamp r.download_mbps (format2 r.download_mbps)
      :: VisEvent.text r.timestamp r.upload_mbps (format2 r.upload_mbps)
      :: textLabels rs

/-- The function `visualize_speed_over_time(df, output_dir)` as its trace of
observable actions.  `df is None or df.empty` short-circuits to a single
print; `if output_dir:` is Python truthiness, so `None` and `""` both
skip the save. -/
def visualize_speed_over_time (df : Option (List MeasurementRecord))
    (output_dir : Option String) : List VisEvent :=
  match df with
  | none => [VisEvent.message "データがありません。可視化を中止します。"]
  | some rows =>
    if rows.isEmpty then
      [VisEvent.message "データがありません。可視化を中止します。"]
    else
      [VisEvent.figure,
       VisEvent.plotSeries "Download" (rows.map (fun r => (r.timestamp, r.download_mbps))),
       VisEvent.plotSeries "Upload" (rows.map (fun r => (r.timestamp, r.upload_mbps))),
       VisEvent.setYLim
         (min (qMin (rows.map (·.download_mbps))) (qMin (rows.map (·.upload_mbps))) * (9 / 10))
         (max (qMax (rows.map (·.download_mbps))) (qMax (rows.map (·.upload_mbps))) * (11 / 10))]
      ++ (if rows.length < 10 then textLabels rows else [])
      ++ (match output_dir with
          | some dir =>
            if dir = "" then []
            else
              [VisEvent.savefig (dir ++ "/network_speed_over_time.png") 300,
               VisEvent.message ("グラフを保存しました: " ++ (dir ++ "/network_speed_over_time.png"))]
          | none => [])
      ++ [VisEvent.showChart]
      ++ [VisEvent.message "\n統計情報:",
          VisEvent.message ("期間: " ++ (dtMin (rows.map (·.timestamp))).render ++ " から "
            ++ (dtMax (rows.map (·.timestamp))).render),
          VisEvent.message ("測定回数: " ++ toString rows.length),
          VisEvent.message ("平均ダウンロード速度: " ++ format2 (qMean (rows.map (·.download_mbps))) ++ " Mbps"),
          VisEvent.message ("平均アップロード速度: " ++ format2 (qMean (rows.map (·.upload_mbps))) ++ " Mbps"),
          VisEvent.message ("最大ダウンロード速度: " ++ format2 (qMax (rows.map (·.download_mbps))) ++ " Mbps"),
          VisEvent.message ("最大アップロード速度: " ++ format2 (qMax (rows.map (·.upload_mbps))) ++ " Mbps"),
          VisEvent.message ("最小ダウンロード速度: " ++ format2 (qMin (rows.map (·.download_mbps))) ++ " Mbps"),
          VisEvent.message ("最小アップロード速度: " ++ format2 (qMin (rows.map (·.upload_mbps))) ++ " Mbps")]

/-- Recognizer of point-annotation events. -/
def isTextEvent : VisEvent → Bool
  | VisEvent.text _ _ _ => true
  | _ => false

/-- The two-row scenario input of the spec. -/
def sampleFile : Option (List (List String)) :=
  some [["Timestamp", "Download", "Upload"],
        ["2024-01-01 00:00:00", "100000000", "50000000"],
        ["2024-01-01 01:00:00", "80000000", "40000000"]]

/-- The dataset the scenario input parses to. -/
def sampleRecords : List MeasurementRecord :=
  [⟨⟨2024, 1, 1, 0, 0, 0⟩, 100000000, 50000000, 100, 50⟩,
   ⟨⟨2024, 1, 1, 1, 0, 0⟩, 80000000, 40000000, 80, 40⟩]

/-- The scenario dataset with the derived fields left as the literal
division terms the parser builds (definitionally equal to what
`parse_core` returns on `sampleFile`). -/
def sampleRecordsRaw : List MeasurementRecord :=
  [⟨⟨2024, 1, 1, 0, 0, 0⟩, ((100000000 : Nat) : ℚ), ((50000000 : Nat) : ℚ),
      ((100000000 : Nat) : ℚ) / 1000000, ((50000000 : Nat) : ℚ) / 1000000⟩,
   ⟨⟨2024, 1, 1, 1, 0, 0⟩, ((80000000 : Nat) : ℚ), ((40000000 : Nat) : ℚ),
      ((80000000 : Nat) : ℚ) / 1000000, ((40000000 : Nat) : ℚ) / 1000000⟩]

/-! ### Helper lemmas about the parser -/

/-- Every record built by `parseRow` carries the two divisions of lines
21–22 of the source in its derived fields. -/
theorem parseRow_ok_mbps {iT iD iU : Nat} {row : List String} {r : MeasurementRecord}
    (h : parseRow iT iD iU row = Except.ok r) :
    r.download_mbps = r.download_bps / 1000000 ∧ r.upload_mbps = r.upload_bps / 1000000 := by
  unfold parseRow at h
  repeat' split at h
  all_goals injection h
  next h => subst h; exact ⟨rfl, rfl⟩

/-- The loop `parseRowsLoop` succeeds exactly rowwise: the output has one record
per input row, at the same index, produced by `parseRow`. -/
theorem parseRowsLoop_ok {iT iD iU : Nat} :
    ∀ {rows : List (List String)} {ds : List MeasurementRecord},
      parseRowsLoop iT iD iU rows = Except.ok ds →
      ds.length = rows.length ∧
        ∀ i, i < rows.length →
          ∃ row rec, rows.get? i = some row ∧ ds.get? i = some rec ∧
            parseRow iT iD iU row = Except.ok rec := by
  intro rows
  induction rows with
  | nil =>
    intro ds h
    unfold parseRowsLoop at h
    cases h
    exact ⟨rfl, fun i hi => absurd hi (by simp)⟩
  | cons r rs ih =>
    intro ds h
    unfold parseRowsLoop at h
    cases hr : parseRow iT iD iU r with
    | error e => rw [hr] at h; exact absurd h (by simp)
    | ok x =>
      rw [hr] at h
      cases hl : parseRowsLoop iT iD iU rs with
      | error e => rw [hl] at h; exact absurd h (by simp)
      | ok xs =>
        rw [hl] at h
        cases h
        obtain ⟨hlen, hpt⟩ := ih hl
        refine ⟨by simp [hlen], ?_⟩
        intro i hi
        cases i with
        | zero => exact ⟨r, x, rfl, rfl, hr⟩
        | succ j =>
          obtain ⟨row, rec, h1, h2, h3⟩ := hpt j (by simpa using hi)
          exact ⟨row, rec, h1, h2, h3⟩

/-- A row that raises makes the whole loop raise: no partial dataset. -/
theorem parseRowsLoop_error_of_mem {iT iD iU : Nat} {row : List String}
    {rows : List (List String)} {e : ParseError} (hmem : row ∈ rows)
    (hrow : parseRow iT iD iU row = Except.error e) :
    ∃ e2, parseRowsLoop iT iD iU rows = Except.error e2 := by
  induction rows with
  | nil => cases hmem
  | cons r rs ih =>
    rcases List.mem_cons.mp hmem with hEq | hTail
    · subst hEq
      exact ⟨e, by unfold parseRowsLoop; rw [hrow]⟩
    · cases hr : parseRow iT iD iU r with
      | error e3 => exact ⟨e3, by unfold parseRowsLoop; rw [hr]⟩
      | ok x =>
        obtain ⟨e2, h2⟩ := ih hTail
        exact ⟨e2, by unfold parseRowsLoop; rw [hr, h2]⟩

/-- Every record of a dataset produced by the row loop comes from
`parseRow` on some input row. -/
theorem parseRowsLoop_ok_mem {iT iD iU : Nat} :
    ∀ {rows : List (List String)} {ds : List MeasurementRecord},
      parseRowsLoop iT iD iU rows = Except.ok ds →
      ∀ r ∈ ds, ∃ row ∈ rows, parseRow iT iD iU row = Except.ok r := by
  intro rows
  induction rows with
  | nil =>
    intro ds h
    unfold parseRowsLoop at h
    cases h
    intro r hr
    cases hr
  | cons r rs ih =>
    intro ds h
    unfold parseRowsLoop at h
    cases hr : parseRow iT iD iU r with
    | error e => rw [hr] at h; exact absurd h (by simp)
    | ok x =>
      rw [hr] at h
      cases hl : parseRowsLoop iT iD iU rs with
      | error e => rw [hl] at h; exact absurd h (by simp)
      | ok xs =>
        rw [hl] at h
        cases h
        intro rec hrec
        rcases List.mem_cons.mp hrec with hEq | hTail
        · exact ⟨r, List.mem_cons_self r rs, hEq ▸ hr⟩
        · obtain ⟨row, hrow, hp⟩ := ih hl rec hTail
          exact ⟨row, List.mem_cons_of_mem r hrow, hp⟩

/-- Every record of a successfully parsed dataset satisfies the Mbps
division property. -/
theorem parse_core_ok_mbps {file : Option (List (List String))}
    {ds : List MeasurementRecord} (h : parse_core file = Except.ok ds) :
    ∀ r ∈ ds, r.download_mbps = r.download_bps / 1000000
      ∧ r.upload_mbps = r.upload_bps / 1000000 := by
  intro r hr
  unfold parse_core at h
  repeat' split at h
  all_goals try simp at h
  obtain ⟨row, _, hp⟩ := parseRowsLoop_ok_mem h r hr
  exact parseRow_ok_mbps hp

/-- C1: for every row the parser accepts, the derived Mbps fields are the
raw bits-per-second values divided by exactly 1,000,000. -/
theorem mbps_is_bps_div_million (file : Option (List (List String)))
    (ds : List MeasurementRecord)
    (h : (parse_speedtest_log file).dataset = some ds) :
    ∀ r ∈ ds, r.download_mbps = r.download_bps / 1000000
      ∧ r.upload_mbps = r.upload_bps / 1000000 := by
  unfold parse_speedtest_log at h
  cases hc : parse_core file with
  | error e => rw [hc] at h; exact absurd h (by simp)
  | ok l =>
    rw [hc] at h
    simp only [Option.some.injEq] at h
    subst h
    exact parse_core_ok_mbps hc

/-- C1 witness: the two-row scenario file is accepted and its records
satisfy the division property. -/
theorem mbps_is_bps_div_million_witness :
    (parse_speedtest_log sampleFile).dataset = some sampleRecordsRaw
    ∧ ∀ r ∈ sampleRecordsRaw, r.download_mbps = r.download_bps / 1000000
        ∧ r.upload_mbps = r.upload_bps / 1000000 :=
  ⟨rfl, mbps_is_bps_div_million sampleFile sampleRecordsRaw rfl⟩

/-- C2: on every failing input the parser returns `none` (never a partial
dataset), prints exactly one diagnostic that embeds the underlying cause,
and the enumerated failure classes (missing file, contentless file,
missing required column, unparsable timestamp or non-numeric throughput
in any row) all fail. -/
theorem parse_failure_policy (file : Option (List (List String))) :
    ((parse_speedtest_log file).dataset = none →
      ∃ e, parse_core file = Except.error e ∧
        (parse_speedtest_log file).console
          = ["エラー: ログファイルの解析に失敗しました - " ++ renderError e])
  ∧ ((parse_speedtest_log file).dataset ≠ none → (parse_speedtest_log file).console = [])
  ∧ (file = none → (parse_speedtest_log file).dataset = none)
  ∧ (file = some [] → (parse_speedtest_log file).dataset = none)
  ∧ (∀ hdr rows, file = some (hdr :: rows) →
      (colIdx? "Timestamp" hdr = none ∨ colIdx? "Download" hdr = none
        ∨ colIdx? "Upload" hdr = none) →
      (parse_speedtest_log file).dataset = none)
  ∧ (∀ hdr rows iT iD iU row e, file = some (hdr :: rows) → row ∈ rows →
      colIdx? "Timestamp" hdr = some iT → colIdx? "Download" hdr = some iD →
      colIdx? "Upload" hdr = some iU → parseRow iT iD iU row = Except.error e →
      (parse_speedtest_log file).dataset = none) := by
  refine ⟨?_, ?_, ?_, ?_, ?_, ?_⟩
  · intro h
    cases hc : parse_core file with
    | error e => exact ⟨e, rfl, by simp [parse_speedtest_log, hc, errorMessage]⟩
    | ok l => rw [parse_speedtest_log, hc] at h; simp at h
  · intro h
    cases hc : parse_core file with
    | error e => rw [parse_speedtest_log, hc] at h; simp at h
    | ok l => simp [parse_speedtest_log, hc]
  · intro h; subst h; rfl
  · intro h; subst h; rfl
  · intro hdr rows hf hcol
    subst hf
    rcases hcol with hT | hD | hU
    · simp [parse_speedtest_log, parse_core, hT]
    · cases hT : colIdx? "Timestamp" hdr with
      | none => simp [parse_speedtest_log, parse_core, hT]
      | some iT => simp [parse_speedtest_log, parse_core, hT, hD]
    · cases hT : colIdx? "Timestamp" hdr with
      | none => simp [parse_speedtest_log, parse_core, hT]
      | some iT =>
        cases hD : colIdx? "Download" hdr with
        | none => simp [parse_speedtest_log, parse_core, hT, hD]
        | some iD => simp [parse_speedtest_log, parse_core, hT, hD, hU]
  · intro hdr rows iT iD iU row e hf hmem hT hD hU hrow
    subst hf
    obtain ⟨e2, hloop⟩ := parseRowsLoop_error_of_mem hmem hrow
    simp [parse_speedtest_log, parse_core, hT, hD, hU, hloop]

/-- C2 witness: the four failure classes at concrete inputs, and the
single diagnostic of the missing-file case. -/
theorem parse_failure_policy_witness :
    (parse_speedtest_log none).dataset = none
  ∧ (parse_speedtest_log (some [])).dataset = none
  ∧ (parse_speedtest_log (some [["Timestamp", "Upload"],
      ["2024-01-01 00:00:00", "50000000"]])).dataset = none
  ∧ (parse_speedtest_log (some [["Timestamp", "Download", "Upload"],
      ["2024-01-01 00:00:00", "abc", "50000000"]])).dataset = none
  ∧ ∃ e, parse_core none = Except.error e ∧
      (parse_speedtest_log none).console
        = ["エラー: ログファイルの解析に失敗しました - " ++ renderError e] :=
  ⟨(parse_failure_policy none).2.2.1 rfl,
   (parse_failure_policy (some [])).2.2.2.1 rfl,
   (parse_failure_policy _).2.2.2.2.1 _ _ rfl (Or.inr (Or.inl rfl)),
   (parse_failure_policy _).2.2.2.2.2 ["Timestamp", "Download", "Upload"]
     [["2024-01-01 00:00:00", "abc", "50000000"]] 0 1 2
     ["2024-01-01 00:00:00", "abc", "50000000"]
     (ParseError.badThroughput "abc") rfl (List.mem_singleton.mpr rfl) rfl rfl rfl rfl,
   (parse_failure_policy none).1 rfl⟩

/-- C3: a missing dataset or a dataset of zero records yields exactly one
diagnostic and nothing else: no figure, no plot, no save, no statistics. -/
theorem empty_dataset_single_message (df : Option (List MeasurementRecord))
    (out : Option String) (h : df = none ∨ df = some []) :
    visualize_speed_over_time df out
      = [VisEvent.message "データがありません。可視化を中止します。"] := by
  rcases h with h | h <;> subst h <;> rfl

/-- C3 witness: the missing-dataset case with an output directory. -/
theorem empty_dataset_single_message_witness :
    visualize_speed_over_time none (some "reports")
      = [VisEvent.message "データがありません。可視化を中止します。"] :=
  empty_dataset_single_message none (some "reports") (Or.inl rfl)

/-- C7: parsing is order-preserving: a successfully parsed dataset has
one record per data row, and the record at every index comes from the row
at the same index. -/
theorem parse_order_preserving (hdr : List String) (rows : List (List String))
    (ds : List MeasurementRecord)
    (h : (parse_speedtest_log (some (hdr :: rows))).dataset = some ds) :
    ds.length = rows.length ∧
    ∃ iT iD iU, colIdx? "Timestamp" hdr = some iT
      ∧ colIdx? "Download" hdr = some iD ∧ colIdx? "Upload" hdr = some iU
      ∧ ∀ i, i < rows.length →
          ∃ row rec, rows.get? i = some row ∧ ds.get? i = some rec ∧
            parseRow iT iD iU row = Except.ok rec := by
  unfold parse_speedtest_log at h
  cases hc : parse_core (some (hdr :: rows)) with
  | error e => rw [hc] at h; simp at h
  | ok l =>
    rw [hc] at h
    simp only [Option.some.injEq] at h
    subst h
    simp only [parse_core] at hc
    cases hT : colIdx? "Timestamp" hdr with
    | none => rw [hT] at hc; simp at hc
    | some iT =>
      rw [hT] at hc
      simp only [] at hc
      cases hD : colIdx? "Download" hdr with
      | none => rw [hD] at hc; simp at hc
      | some iD =>
        rw [hD] at hc
        simp only [] at hc
        cases hU : colIdx? "Upload" hdr with
        | none => rw [hU] at hc; simp at hc
        | some iU =>
          rw [hU] at hc
          simp only [] at hc
          obtain ⟨hlen, hpt⟩ := parseRowsLoop_ok hc
          exact ⟨hlen, iT, iD, iU, rfl, rfl, rfl, hpt⟩

/-- C7 witness: order preservation on the two-row scenario file. -/
theorem parse_order_preserving_witness :
    sampleRecordsRaw.length
        = [["2024-01-01 00:00:00", "100000000", "50000000"],
           ["2024-01-01 01:00:00", "80000000", "40000000"]].length
    ∧ ∃ iT iD iU,
        colIdx? "Timestamp" ["Timestamp", "Download", "Upload"] = some iT
      ∧ colIdx? "Download" ["Timestamp", "Download", "Upload"] = some iD
      ∧ colIdx? "Upload" ["Timestamp", "Download", "Upload"] = some iU
      ∧ ∀ i, i < [["2024-01-01 00:00:00", "100000000", "50000000"],
                  ["2024-01-01 01:00:00", "80000000", "40000000"]].length →
          ∃ row rec,
            [["2024-01-01 00:00:00", "100000000", "50000000"],
             ["2024-01-01 01:00:00", "80000000", "40000000"]].get? i = some row
          ∧ sampleRecordsRaw.get? i = some rec
          ∧ parseRow iT iD iU row = Except.ok rec :=
  parse_order_preserving ["Timestamp", "Download", "Upload"]
    [["2024-01-01 00:00:00", "100000000", "50000000"],
     ["2024-01-01 01:00:00", "80000000", "40000000"]] sampleRecordsRaw rfl

/-! ### Helper lemmas about the visualizer trace -/

/-- Every event of the annotation loop is a `text` event. -/
theorem textLabels_shape {v : VisEvent} :
    ∀ {rows : List MeasurementRecord}, v ∈ textLabels rows →
      ∃ t q s, v = VisEvent.text t q s := by
  intro rows
  induction rows with
  | nil => intro h; cases h
  | cons r rs ih =>
    intro h
    rcases List.mem_cons.mp h with h1 | h2
    · exact ⟨_, _, _, h1⟩
    · rcases List.mem_cons.mp h2 with h3 | h4
      · exact ⟨_, _, _, h3⟩
      · exact ih h4

/-- The annotation loop emits exactly two `text` events per record. -/
theorem countP_textLabels (rows : List MeasurementRecord) :
    (textLabels rows).countP isTextEvent = 2 * rows.length := by
  induction rows with
  | nil => rfl
  | cons r rs ih =>
    simp only [textLabels, List.countP_cons, ih, isTextEvent, List.length_cons, if_true]
    omega

/-- Unfolding `qMin` on a cons with a non-empty tail. -/
theorem qMin_cons (x : ℚ) (xs : List ℚ) (h : xs ≠ []) :
    qMin (x :: xs) = min x (qMin xs) := by
  cases xs with
  | nil => exact absurd rfl h
  | cons y t => simp [qMin]

/-- Unfolding `qMax` on a cons with a non-empty tail. -/
theorem qMax_cons (x : ℚ) (xs : List ℚ) (h : xs ≠ []) :
    qMax (x :: xs) = max x (qMax xs) := by
  cases xs with
  | nil => exact absurd rfl h
  | cons y t => simp [qMax]

/-- The minimum over the concatenation of two non-empty series is the
minimum of the two series minima: the source's
`min(df["Download_Mbps"].min(), df["Upload_Mbps"].min())` equals the
minimum over all values of both series combined. -/
theorem qMin_append (a b : List ℚ) (ha : a ≠ []) (hb : b ≠ []) :
    qMin (a ++ b) = min (qMin a) (qMin b) := by
  induction a with
  | nil => exact absurd rfl ha
  | cons x xs ih =>
    cases hxs : xs with
    | nil =>
      subst hxs
      rw [List.singleton_append, qMin_cons x b hb]
      simp [qMin]
    | cons y t =>
      subst hxs
      rw [List.cons_append, qMin_cons x ((y :: t) ++ b) (by simp), ih (by simp),
        qMin_cons x (y :: t) (by simp), min_assoc]

/-- Mirror of `qMin_append` for the maximum. -/
theorem qMax_append (a b : List ℚ) (ha : a ≠ []) (hb : b ≠ []) :
    qMax (a ++ b) = max (qMax a) (qMax b) := by
  induction a with
  | nil => exact absurd rfl ha
  | cons x xs ih =>
    cases hxs : xs with
    | nil =>
      subst hxs
      rw [List.singleton_append, qMax_cons x b hb]
      simp [qMax]
    | cons y t =>
      subst hxs
      rw [List.cons_append, qMax_cons x ((y :: t) ++ b) (by simp), ih (by simp),
        qMax_cons x (y :: t) (by simp), max_assoc]

/-- No `setYLim` event comes from the annotation loop. -/
theorem setYLim_mem_textLabels {lo hi : ℚ} {rows : List MeasurementRecord} :
    VisEvent.setYLim lo hi ∈ textLabels rows ↔ False := by
  constructor
  · intro hm
    obtain ⟨t, q, s, he⟩ := textLabels_shape hm
    cases he
  · intro hf; cases hf

/-- No `savefig` event comes from the annotation loop. -/
theorem savefig_mem_textLabels {p : String} {n : Nat} {rows : List MeasurementRecord} :
    VisEvent.savefig p n ∈ textLabels rows ↔ False := by
  constructor
  · intro hm
    obtain ⟨t, q, s, he⟩ := textLabels_shape hm
    cases he
  · intro hf; cases hf

/-- No `message` event comes from the annotation loop. -/
theorem message_mem_textLabels {s : String} {rows : List MeasurementRecord} :
    VisEvent.message s ∈ textLabels rows ↔ False := by
  constructor
  · intro hm
    obtain ⟨t, q, str, he⟩ := textLabels_shape hm
    cases he
  · intro hf; cases hf

/-- C6: point annotations are rendered iff the dataset has fewer than 10
records, two `plt.text` calls per record (download and upload); at 10 or
more records none are rendered. -/
theorem annotations_iff_below_ten (rows : List MeasurementRecord) (out : Option String)
    (h : rows ≠ []) :
    (visualize_speed_over_time (some rows) out).countP isTextEvent
      = if rows.length < 10 then 2 * rows.length else 0 := by
  simp only [visualize_speed_over_time]
  rw [if_neg (by simp [h])]
  rw [List.countP_append, List.countP_append, List.countP_append, List.countP_append]
  cases out with
  | none =>
    by_cases hlt : rows.length < 10 <;>
      simp [hlt, List.countP_cons, isTextEvent, countP_textLabels]
  | some dir =>
    by_cases hdir : dir = "" <;> by_cases hlt : rows.length < 10 <;>
      simp [hdir, hlt, List.countP_cons, isTextEvent, countP_textLabels]

/-- C6 witness: the two-record scenario dataset renders 2 × 2 = 4
annotations (2 < 10). -/
theorem annotations_iff_below_ten_witness :
    (visualize_speed_over_time (some sampleRecords) none).countP isTextEvent
      = if sampleRecords.length < 10 then 2 * sampleRecords.length else 0 :=
  annotations_iff_below_ten sampleRecords none (by decide)

/-- C5: the single `plt.ylim` call of the chart uses 0.9 times the
minimum and 1.1 times the maximum over the Mbps values of both series
combined. -/
theorem yaxis_bounds (rows : List MeasurementRecord) (out : Option String)
    (h : rows ≠ []) :
    VisEvent.setYLim
        (qMin (rows.map (·.download_mbps) ++ rows.map (·.upload_mbps)) * (9 / 10))
        (qMax (rows.map (·.download_mbps) ++ rows.map (·.upload_mbps)) * (11 / 10))
      ∈ visualize_speed_over_time (some rows) out
    ∧ ∀ lo hi, VisEvent.setYLim lo hi ∈ visualize_speed_over_time (some rows) out →
        lo = qMin (rows.map (·.download_mbps) ++ rows.map (·.upload_mbps)) * (9 / 10)
        ∧ hi = qMax (rows.map (·.download_mbps) ++ rows.map (·.upload_mbps)) * (11 / 10) := by
  have hdl : rows.map (·.download_mbps) ≠ [] := by simp [h]
  have hul : rows.map (·.upload_mbps) ≠ [] := by simp [h]
  rw [qMin_append _ _ hdl hul, qMax_append _ _ hdl hul]
  constructor
  · simp only [visualize_speed_over_time]
    rw [if_neg (by simp [h])]
    simp [List.mem_append]
  · intro lo hi hmem
    simp only [visualize_speed_over_time] at hmem
    rw [if_neg (by simp [h])] at hmem
    rcases out with _ | dir
    · by_cases hlt : rows.length < 10 <;>
        simp [hlt, setYLim_mem_textLabels, List.mem_append] at hmem <;>
        exact ⟨hmem.1, hmem.2⟩
    · by_cases hdir : dir = "" <;> by_cases hlt : rows.length < 10 <;>
        simp [hdir, hlt, setYLim_mem_textLabels, List.mem_append] at hmem <;>
        exact ⟨hmem.1, hmem.2⟩

/-- C5 witness: the Y-axis bounds on the scenario dataset. -/
theorem yaxis_bounds_witness :
    VisEvent.setYLim
        (qMin (sampleRecords.map (·.download_mbps) ++ sampleRecords.map (·.upload_mbps)) * (9 / 10))
        (qMax (sampleRecords.map (·.download_mbps) ++ sampleRecords.map (·.upload_mbps)) * (11 / 10))
      ∈ visualize_speed_over_time (some sampleRecords) none
    ∧ ∀ lo hi, VisEvent.setYLim lo hi ∈ visualize_speed_over_time (some sampleRecords) none →
        lo = qMin (sampleRecords.map (·.download_mbps) ++ sampleRecords.map (·.upload_mbps)) * (9 / 10)
        ∧ hi = qMax (sampleRecords.map (·.download_mbps) ++ sampleRecords.map (·.upload_mbps)) * (11 / 10) :=
  yaxis_bounds sampleRecords none (by decide)

/-! ### String-prefix helpers for distinguishing printed messages -/

/-- Two strings with different first characters differ. -/
theorem string_ne_of_head_ne {s t : String} (h : s.data.head? ≠ t.data.head?) :
    s ≠ t :=
  fun e => h (by rw [e])

/-- Appending does not change a non-empty head. -/
theorem head_append_of_head {s : String} (t : String) {c : Char}
    (h : s.data.head? = some c) : (s ++ t).data.head? = some c := by
  rw [String.data_append]
  cases hd : s.data with
  | nil => rw [hd] at h; simp at h
  | cons a as => rw [hd] at h; simpa using h

/-- Two appends whose left parts start with different characters
differ. -/
theorem ne_append_of_head_ne {s t : String} (p q : String) {c d : Char}
    (hs : s.data.head? = some c) (ht : t.data.head? = some d) (hcd : c ≠ d) :
    s ++ p ≠ t ++ q := by
  apply string_ne_of_head_ne
  rw [head_append_of_head p hs, head_append_of_head q ht]
  simp [hcd]

/-- An append whose left part starts with `c` differs from a string
starting with `d ≠ c`. -/
theorem append_ne_of_head_ne {s t : String} (p : String) {c d : Char}
    (hs : s.data.head? = some c) (ht : t.data.head? = some d) (hcd : c ≠ d) :
    s ++ p ≠ t := by
  apply string_ne_of_head_ne
  rw [head_append_of_head p hs, ht]
  simp [hcd]

/-- C8: with a non-empty output directory the chart is saved under the
fixed name `network_speed_over_time.png` inside it at 300 dpi, the save
path is echoed, and `plt.show` runs whatever the output directory is. -/
theorem save_path_and_show (rows : List MeasurementRecord) (dir : String)
    (out : Option String) (h : rows ≠ []) (hdir : dir ≠ "") :
    VisEvent.savefig (dir ++ "/network_speed_over_time.png") 300
        ∈ visualize_speed_over_time (some rows) (some dir)
    ∧ VisEvent.message ("グラフを保存しました: " ++ (dir ++ "/network_speed_over_time.png"))
        ∈ visualize_speed_over_time (some rows) (some dir)
    ∧ VisEvent.showChart ∈ visualize_speed_over_time (some rows) out := by
  refine ⟨?_, ?_, ?_⟩ <;> simp only [visualize_speed_over_time] <;>
    rw [if_neg (by simp [h])]
  · simp [List.mem_append, hdir]
  · simp [List.mem_append, hdir]
  · simp [List.mem_append]

/-- C8 witness: saving the scenario chart into `reports`. -/
theorem save_path_and_show_witness :
    VisEvent.savefig ("reports" ++ "/network_speed_over_time.png") 300
        ∈ visualize_speed_over_time (some sampleRecords) (some "reports")
    ∧ VisEvent.message ("グラフを保存しました: " ++ ("reports" ++ "/network_speed_over_time.png"))
        ∈ visualize_speed_over_time (some sampleRecords) (some "reports")
    ∧ VisEvent.showChart ∈ visualize_speed_over_time (some sampleRecords) none :=
  save_path_and_show sampleRecords "reports" none (by decide) (by decide)

/-- C9: a header-only file parses successfully to the empty dataset with
nothing printed, and the run then renders nothing and prints exactly the
single no-data diagnostic. -/
theorem header_only_noop (out : Option String) :
    (parse_speedtest_log (some [["Timestamp", "Download", "Upload"]])).dataset = some []
  ∧ (parse_speedtest_log (some [["Timestamp", "Download", "Upload"]])).console = []
  ∧ visualize_speed_over_time (some []) out
      = [VisEvent.message "データがありません。可視化を中止します。"] :=
  ⟨rfl, rfl, rfl⟩

/-- C10: `if output_dir:` tests truthiness, so a `None` or empty-string
output directory skips exactly the save step (no file written, no
save-confirmation printed) while the rest of the trace is the one a
truthy directory produces with the two save events removed. -/
theorem falsy_output_dir_skips_save (rows : List MeasurementRecord)
    (out : Option String) (dir : String) (h : rows ≠ [])
    (hout : out = none ∨ out = some "") (hdir : dir ≠ "") :
    (∀ p n, VisEvent.savefig p n ∉ visualize_speed_over_time (some rows) out)
  ∧ (∀ p, VisEvent.message ("グラフを保存しました: " ++ p)
        ∉ visualize_speed_over_time (some rows) out)
  ∧ ∃ pre post,
      visualize_speed_over_time (some rows) out = pre ++ post
      ∧ visualize_speed_over_time (some rows) (some dir)
          = pre ++ ([VisEvent.savefig (dir ++ "/network_speed_over_time.png") 300,
              VisEvent.message ("グラフを保存しました: "
                ++ (dir ++ "/network_speed_over_time.png"))] ++ post) := by
  have hfalsy : visualize_speed_over_time (some rows) out
      = visualize_speed_over_time (some rows) none := by
    rcases hout with h1 | h1 <;> subst h1
    · rfl
    · simp [visualize_speed_over_time]
  rw [hfalsy]
  refine ⟨?_, ?_, ?_⟩
  · intro p n hmem
    simp only [visualize_speed_over_time] at hmem
    rw [if_neg (by simp [h])] at hmem
    by_cases hlt : rows.length < 10 <;>
      simp [hlt, savefig_mem_textLabels, List.mem_append] at hmem
  · intro p hmem
    simp only [visualize_speed_over_time] at hmem
    rw [if_neg (by simp [h])] at hmem
    by_cases hlt : rows.length < 10 <;>
      simp [hlt, message_mem_textLabels, List.mem_append] at hmem <;>
      rcases hmem with h1 | h1 | h1 | h1 | h1 | h1 | h1 | h1 | h1 <;>
      exact absurd h1 (append_ne_of_head_ne p rfl rfl (by decide))
  · refine ⟨[VisEvent.figure,
        VisEvent.plotSeries "Download" (rows.map (fun r => (r.timestamp, r.download_mbps))),
        VisEvent.plotSeries "Upload" (rows.map (fun r => (r.timestamp, r.upload_mbps))),
        VisEvent.setYLim
          (min (qMin (rows.map (·.download_mbps))) (qMin (rows.map (·.upload_mbps))) * (9 / 10))
          (max (qMax (rows.map (·.download_mbps))) (qMax (rows.map (·.upload_mbps))) * (11 / 10))]
        ++ (if rows.length < 10 then textLabels rows else []),
      VisEvent.showChart
        :: [VisEvent.message "\n統計情報:",
            VisEvent.message ("期間: " ++ (dtMin (rows.map (·.timestamp))).render ++ " から "
              ++ (dtMax (rows.map (·.timestamp))).render),
            VisEvent.message ("測定回数: " ++ toString rows.length),
            VisEvent.message ("平均ダウンロード速度: " ++ format2 (qMean (rows.map (·.download_mbps))) ++ " Mbps"),
            VisEvent.message ("平均アップロード速度: " ++ format2 (qMean (rows.map (·.upload_mbps))) ++ " Mbps"),
            VisEvent.message ("最大ダウンロード速度: " ++ format2 (qMax (rows.map (·.download_mbps))) ++ " Mbps"),
            VisEvent.message ("最大アップロード速度: " ++ format2 (qMax (rows.map (·.upload_mbps))) ++ " Mbps"),
            VisEvent.message ("最小ダウンロード速度: " ++ format2 (qMin (rows.map (·.download_mbps))) ++ " Mbps"),
            VisEvent.message ("最小アップロード速度: " ++ format2 (qMin (rows.map (·.upload_mbps))) ++ " Mbps")],
      ?_, ?_⟩
    · simp only [visualize_speed_over_time]
      rw [if_neg (by simp [h])]
      simp [List.append_assoc]
    · simp only [visualize_speed_over_time]
      rw [if_neg (by simp [h])]
      simp [hdir, List.append_assoc]

/-- C10 witness: the scenario dataset with no output directory versus the
`reports` directory. -/
theorem falsy_output_dir_skips_save_witness :
    (∀ p n, VisEvent.savefig p n ∉ visualize_speed_over_time (some sampleRecords) none)
  ∧ (∀ p, VisEvent.message ("グラフを保存しました: " ++ p)
        ∉ visualize_speed_over_time (some sampleRecords) none)
  ∧ ∃ pre post,
      visualize_speed_over_time (some sampleRecords) none = pre ++ post
      ∧ visualize_speed_over_time (some sampleRecords) (some "reports")
          = pre ++ ([VisEvent.savefig ("reports" ++ "/network_speed_over_time.png") 300,
              VisEvent.message ("グラフを保存しました: "
                ++ ("reports" ++ "/network_speed_over_time.png"))] ++ post) :=
  falsy_output_dir_skips_save sampleRecords none "reports" (by decide)
    (Or.inl rfl) (by decide)

/-! ### Concrete evaluation helpers for the scenario -/

/-- Rounding a whole number of Mbps to hundredths is exact. -/
theorem floor_ofNat_half (n : Nat) :
    Int.floor ((n : ℚ) * 100 + 1 / 2) = 100 * n := by
  rw [Int.floor_eq_iff]
  push_cast
  constructor <;> linarith

/-- Formatting a whole number of Mbps with `:.2f`. -/
theorem format2_ofNat (n : Nat) : format2 ((n : ℚ)) = format2Int (100 * n) := by
  rw [format2, floor_ofNat_half]

/-- The raw parsed records are the scenario records: the divisions by
1,000,000 evaluate to the expected Mbps values. -/
theorem sampleRecordsRaw_eq : sampleRecordsRaw = sampleRecords := by
  simp only [sampleRecordsRaw, sampleRecords]
  norm_num

/-- C4: the scenario file parses to 2 records with Mbps values
[100, 80] and [50, 40]; for every non-empty dataset the trace ends with
the statistics block (count, earliest-to-latest span, mean/max/min of
each series formatted to 2 decimals), and for the scenario the formatted
figures are 90.00/100.00/80.00 download and 45.00/50.00/40.00 upload. -/
theorem scenario_dataset_and_stats :
    (parse_speedtest_log sampleFile).dataset = some sampleRecords
  ∧ sampleRecords.length = 2
  ∧ sampleRecords.map (·.download_mbps) = [100, 80]
  ∧ sampleRecords.map (·.upload_mbps) = [50, 40]
  ∧ (∀ rows out, rows ≠ [] →
      ∃ pre, visualize_speed_over_time (some rows) out = pre ++
        [VisEvent.message "\n統計情報:",
         VisEvent.message ("期間: " ++ (dtMin (rows.map (·.timestamp))).render ++ " から "
           ++ (dtMax (rows.map (·.timestamp))).render),
         VisEvent.message ("測定回数: " ++ toString rows.length),
         VisEvent.message ("平均ダウンロード速度: " ++ format2 (qMean (rows.map (·.download_mbps))) ++ " Mbps"),
         VisEvent.message ("平均アップロード速度: " ++ format2 (qMean (rows.map (·.upload_mbps))) ++ " Mbps"),
         VisEvent.message ("最大ダウンロード速度: " ++ format2 (qMax (rows.map (·.download_mbps))) ++ " Mbps"),
         VisEvent.message ("最大アップロード速度: " ++ format2 (qMax (rows.map (·.upload_mbps))) ++ " Mbps"),
         VisEvent.message ("最小ダウンロード速度: " ++ format2 (qMin (rows.map (·.download_mbps))) ++ " Mbps"),
         VisEvent.message ("最小アップロード速度: " ++ format2 (qMin (rows.map (·.upload_mbps))) ++ " Mbps")])
  ∧ (dtMin (sampleRecords.map (·.timestamp))).render = "2024-01-01 00:00:00"
  ∧ (dtMax (sampleRecords.map (·.timestamp))).render = "2024-01-01 01:00:00"
  ∧ format2 (qMean (sampleRecords.map (·.download_mbps))) = "90.00"
  ∧ format2 (qMax (sampleRecords.map (·.download_mbps))) = "100.00"
  ∧ format2 (qMin (sampleRecords.map (·.download_mbps))) = "80.00"
  ∧ format2 (qMean (sampleRecords.map (·.upload_mbps))) = "45.00"
  ∧ format2 (qMax (sampleRecords.map (·.upload_mbps))) = "50.00"
  ∧ format2 (qMin (sampleRecords.map (·.upload_mbps))) = "40.00" := by
  refine ⟨?_, rfl, rfl, rfl, ?_, by decide, by decide, ?_, ?_, ?_, ?_, ?_, ?_⟩
  · show (match parse_core sampleFile with
      | Except.ok ds => ParseOutput.mk (some ds) []
      | Except.error e => ParseOutput.mk none [errorMessage e]).dataset = some sampleRecords
    rw [show parse_core sampleFile = Except.ok sampleRecordsRaw from rfl, sampleRecordsRaw_eq]
  · intro rows out h
    simp only [visualize_speed_over_time]
    rw [if_neg (by simp [h])]
    exact ⟨_, rfl⟩
  · rw [show qMean (sampleRecords.map (·.download_mbps)) = ((90 : Nat) : ℚ) from by
      push_cast; norm_num [sampleRecords, qMean, qSum], format2_ofNat]
    decide
  · rw [show qMax (sampleRecords.map (·.download_mbps)) = ((100 : Nat) : ℚ) from by
      push_cast; norm_num [sampleRecords, qMax, max_def], format2_ofNat]
    decide
  · rw [show qMin (sampleRecords.map (·.download_mbps)) = ((80 : Nat) : ℚ) from by
      push_cast; norm_num [sampleRecords, qMin, min_def], format2_ofNat]
    decide
  · rw [show qMean (sampleRecords.map (·.upload_mbps)) = ((45 : Nat) : ℚ) from by
      push_cast; norm_num [sampleRecords, qMean, qSum], format2_ofNat]
    decide
  · rw [show qMax (sampleRecords.map (·.upload_mbps)) = ((50 : Nat) : ℚ) from by
      push_cast; norm_num [sampleRecords, qMax, max_def], format2_ofNat]
    decide
  · rw [show qMin (sampleRecords.map (·.upload_mbps)) = ((40 : Nat) : ℚ) from by
      push_cast; norm_num [sampleRecords, qMin, min_def], format2_ofNat]
    decide

/-- C4 witness: the statistics-block decomposition at the scenario
dataset. -/
theorem scenario_dataset_and_stats_witness :
    ∃ pre, visualize_speed_over_time (some sampleRecords) none = pre ++
      [VisEvent.message "\n統計情報:",
       VisEvent.message ("期間: " ++ (dtMin (sampleRecords.map (·.timestamp))).render ++ " から "
         ++ (dtMax (sampleRecords.map (·.timestamp))).render),
       VisEvent.message ("測定回数: " ++ toString sampleRecords.length),
       VisEvent.message ("平均ダウンロード速度: " ++ format2 (qMean (sampleRecords.map (·.download_mbps))) ++ " Mbps"),
       VisEvent.message ("平均アップロード速度: " ++ format2 (qMean (sampleRecords.map (·.upload_mbps))) ++ " Mbps"),
       VisEvent.message ("最大ダウンロード速度: " ++ format2 (qMax (sampleRecords.map (·.download_mbps))) ++ " Mbps"),
       VisEvent.message ("最大アップロード速度: " ++ format2 (qMax (sampleRecords.map (·.upload_mbps))) ++ " Mbps"),
       VisEvent.message ("最小ダウンロード速度: " ++ format2 (qMin (sampleRecords.map (·.download_mbps))) ++ " Mbps"),
       VisEvent.message ("最小アップロード速度: " ++ format2 (qMin (sampleRecords.map (·.upload_mbps))) ++ " Mbps")] :=
  scenario_dataset_and_stats.2.2.2.2.1 sampleRecords none (by decide)
